import Mathlib

/-!
Verification of the compas geometry core: `Arc` (compas/geometry/curves/arc.py)
and `Quaternion` (compas/geometry/xforms/quaternion.py).

Real scalars of the source are embedded as exact rationals (`ℚ`); `math.pi`
is embedded as the exact rational value of the IEEE-754 double that Python's
`math.pi` denotes.  Python exceptions are embedded as `Except Err`; in-place
mutation of an object is embedded as explicit state passing: a method that
mutates its receiver is a function returning the receiver's new state.
-/

namespace Compas

/-- The exact rational value of the IEEE-754 double `math.pi`. -/
def math_pi : ℚ := 884279719003555 / 281474976710656

/-- Embeds `PI2 = 2.0 * math.pi` from arc.py. -/
def PI2 : ℚ := 2 * math_pi

/-- The error kinds the embedded code can raise.  `invalidValue` stands for the
`ValueError` raised by a setter on an out-of-domain scalar, `notSet` for the
`ValueError` raised by a getter on an unassigned field, `invalidGeometry` for
the `ValueError` raised by `Arc._verify`, `keyError` for `KeyError` in
`__getitem__`, and `typeError` for a `TypeError` from comparing `None` with a
float. -/
inductive Err where
  | invalidValue
  | notSet
  | invalidGeometry
  | keyError
  | typeError
deriving DecidableEq, Repr

/-- The `Frame` collaborator type (external to the two source files): the
claims only compare frames for equality and copy them around, so it is
embedded as an opaque token with decidable equality. -/
structure Frame where
  id : Nat
deriving DecidableEq, Repr

/-- The `Circle` collaborator: a frame and a radius. -/
structure Circle where
  frame : Frame
  radius : ℚ
deriving DecidableEq, Repr

/-- The state of an `Arc` object: the four private fields `_frame`, `_radius`,
`_start_angle`, `_end_angle`, each nullable (`None` embedded as `none`). -/
structure Arc where
  _frame : Option Frame
  _radius : Option ℚ
  _start_angle : Option ℚ
  _end_angle : Option ℚ
deriving DecidableEq, Repr

/-- Embeds the `radius` getter: raises `ValueError("Radius not set.")` when
`self._radius is None`, else returns the stored value. -/
def Arc.radius_get (a : Arc) : Except Err ℚ :=
  match a._radius with
  | none => .error .notSet
  | some r => .ok r

/-- Embeds the `radius` setter: raises `ValueError` when `value <= 0.0`, else
stores the value in `self._radius`. -/
def Arc.radius_set (a : Arc) (value : ℚ) : Except Err Arc :=
  if value ≤ 0 then .error .invalidValue
  else .ok { a with _radius := some value }

/-- Embeds the `start_angle` getter: when `self._start_angle is None` it first
stores `0.0` there, then returns the stored value; the pair is (returned
value, receiver state after the call). -/
def Arc.start_angle_get (a : Arc) : ℚ × Arc :=
  match a._start_angle with
  | none => (0, { a with _start_angle := some 0 })
  | some v => (v, a)

/-- Embeds the `start_angle` setter: raises `ValueError` when
`value < 0.0 or value > PI2`, else stores the value. -/
def Arc.start_angle_set (a : Arc) (value : ℚ) : Except Err Arc :=
  if value < 0 ∨ value > PI2 then .error .invalidValue
  else .ok { a with _start_angle := some value }

/-- Embeds the `end_angle` getter: raises `ValueError("End angle not set.")`
when `self._end_angle is None`, else returns the stored value. -/
def Arc.end_angle_get (a : Arc) : Except Err ℚ :=
  match a._end_angle with
  | none => .error .notSet
  | some v => .ok v

/-- Embeds the `end_angle` setter: raises `ValueError` when
`value < 0.0 or value > PI2`, else stores the value. -/
def Arc.end_angle_set (a : Arc) (value : ℚ) : Except Err Arc :=
  if value < 0 ∨ value > PI2 then .error .invalidValue
  else .ok { a with _end_angle := some value }

/-- Modelled from the spec: the `Curve` base class (its file `curve.py` is not
under src/) stores the coordinate frame attribute; the spec lists `frame` as a
stored attribute and names only `radius` and `end_angle` as fields whose read
can fail with `NotSet`, so the frame setter is embedded as a plain store. -/
def Arc.frame_set (a : Arc) (f : Option Frame) : Arc :=
  { a with _frame := f }

/-- Modelled from the spec: the `Curve` base class frame getter returns the
stored frame; the unassigned branch raises (unreachable in every claim, which
all concern arcs whose frame is set). -/
def Arc.frame_get (a : Arc) : Except Err Frame :=
  match a._frame with
  | none => .error .notSet
  | some f => .ok f

/-- Embeds the `angle` property `self.end_angle - self.start_angle`: the
`end_angle` read may raise, the `start_angle` read may store the 0.0 default;
the pair is (value, receiver state after). -/
def Arc.angle_get (a : Arc) : Except Err (ℚ × Arc) :=
  match a.end_angle_get with
  | .error e => .error e
  | .ok e =>
      let (s, a1) := a.start_angle_get
      .ok (e - s, a1)

/-- Embeds `Arc._verify`: raises `ValueError` when
`self.angle < 0.0 or self.angle > PI2`, else returns normally; the `ok` value
is the receiver state after the `angle` reads. -/
def Arc._verify (a : Arc) : Except Err Arc :=
  match a.angle_get with
  | .error e => .error e
  | .ok (ang, a1) =>
      if ang < 0 ∨ ang > PI2 then .error .invalidGeometry else .ok a1

/-- Embeds the `circle` property `Circle(self.frame, self.radius)`. -/
def Arc.circle_get (a : Arc) : Except Err Circle :=
  match a.frame_get with
  | .error e => .error e
  | .ok f =>
      match a.radius_get with
      | .error e => .error e
      | .ok r => .ok ⟨f, r⟩

/-- Embeds the `length` property `self.radius * self.angle`. -/
def Arc.length_get (a : Arc) : Except Err (ℚ × Arc) :=
  match a.radius_get with
  | .error e => .error e
  | .ok r =>
      match a.angle_get with
      | .error e => .error e
      | .ok (ang, a1) => .ok (r * ang, a1)

/-- Embeds the `diameter` property `2.0 * self.radius`. -/
def Arc.diameter_get (a : Arc) : Except Err ℚ :=
  match a.radius_get with
  | .error e => .error e
  | .ok r => .ok (2 * r)

/-- Embeds the `circumference` property `self.diameter * math.pi`. -/
def Arc.circumference_get (a : Arc) : Except Err ℚ :=
  match a.diameter_get with
  | .error e => .error e
  | .ok d => .ok (d * math_pi)

/-- Embeds `Arc.__init__(frame, radius, start_angle, end_angle)`: the frame is
stored by the base-class constructor, the three private fields start as
`None`, then the three validating setters run in order radius, start_angle,
end_angle. -/
def Arc.init (frame : Option Frame) (radius start_angle end_angle : ℚ) :
    Except Err Arc :=
  let a0 : Arc :=
    { _frame := frame, _radius := none, _start_angle := none, _end_angle := none }
  match a0.radius_set radius with
  | .error e => .error e
  | .ok a1 =>
      match a1.start_angle_set start_angle with
      | .error e => .error e
      | .ok a2 => a2.end_angle_set end_angle

/-- Embeds `Arc.from_circle(circle, start_angle, end_angle)`: calls the
constructor with the circle's frame and radius. -/
def Arc.from_circle (circle : Circle) (start_angle end_angle : ℚ) :
    Except Err Arc :=
  Arc.init (some circle.frame) circle.radius start_angle end_angle

/-- A runtime value an indexed component can hold: a frame or a number.
Python's `==` between a frame and a number is false, which structural equality
on this sum reproduces. -/
inductive Val where
  | frameV (f : Frame)
  | numV (q : ℚ)
deriving DecidableEq, Repr

/-- A duck-typed object on the right of `Arc.__eq__`: indexed access that
either yields a value or raises (embedded as `none`, which the `except`
clause of `__eq__` turns into "not equal"). -/
def Obj : Type := Nat → Option Val

/-- Embeds `Arc.__getitem__`: keys 0..3 return frame, radius, start_angle,
end_angle through the property getters (which may raise); any other key
raises `KeyError`. -/
def Arc.getitem (a : Arc) (key : Nat) : Except Err Val :=
  if key = 0 then
    match a.frame_get with
    | .error e => .error e
    | .ok f => .ok (.frameV f)
  else if key = 1 then
    match a.radius_get with
    | .error e => .error e
    | .ok r => .ok (.numV r)
  else if key = 2 then .ok (.numV (a.start_angle_get).1)
  else if key = 3 then
    match a.end_angle_get with
    | .error e => .error e
    | .ok v => .ok (.numV v)
  else .error .keyError

/-- An arc viewed as a duck-typed object through its `__getitem__`: a raised
exception becomes `none`. -/
def Arc.toObj (a : Arc) : Obj := fun key => (a.getitem key).toOption

/-- A plain four-element sequence viewed as a duck-typed object: indexed
access past the end raises. -/
def listObj (l : List Val) : Obj := fun key => l.get? key

/-- Embeds `Arc.__eq__`: fetching `other[0] .. other[3]` inside `try`, any
failure returning `False`; then the short-circuit conjunction
`self.frame == other[0] and self.radius == other[1] and ...`, in which the
getters of `self` run outside the `try` and can raise. -/
def Arc.eq (a : Arc) (other : Obj) : Except Err Bool :=
  match other 0, other 1, other 2, other 3 with
  | some of, some orad, some ost, some oe =>
      match a.frame_get with
      | .error e => .error e
      | .ok f =>
          if Val.frameV f ≠ of then .ok false
          else
            match a.radius_get with
            | .error e => .error e
            | .ok r =>
                if Val.numV r ≠ orad then .ok false
                else
                  if Val.numV (a.start_angle_get).1 ≠ ost then .ok false
                  else
                    match a.end_angle_get with
                    | .error e => .error e
                    | .ok en => .ok (Val.numV en = oe)
  | _, _, _, _ => .ok false

/-- The serialized record of an arc: a dict with exactly the four keys
`frame`, `radius`, `start_angle`, `end_angle`; each value is whatever the
private field holds, possibly `None`. -/
structure ArcData where
  frame : Option Frame
  radius : Option ℚ
  start_angle : Option ℚ
  end_angle : Option ℚ
deriving DecidableEq, Repr

/-- Embeds the `data` getter: the dict of the four private fields. -/
def Arc.data_get (a : Arc) : ArcData :=
  ⟨a._frame, a._radius, a._start_angle, a._end_angle⟩

/-- Embeds the `data` setter: assigns the four record entries through the
property setters in order frame, radius, start_angle, end_angle.  A `None`
entry for a numeric field makes the setter's comparison with a float raise
`TypeError`. -/
def Arc.data_set (a : Arc) (value : ArcData) : Except Err Arc :=
  let a1 := a.frame_set value.frame
  match value.radius with
  | none => .error .typeError
  | some r =>
      match a1.radius_set r with
      | .error e => .error e
      | .ok a2 =>
          match value.start_angle with
          | none => .error .typeError
          | some s =>
              match a2.start_angle_set s with
              | .error e => .error e
              | .ok a3 =>
                  match value.end_angle with
                  | none => .error .typeError
                  | some en => a3.end_angle_set en

/-- The state of a `Quaternion` object: the four fields `w`, `x`, `y`, `z`. -/
structure Quaternion where
  w : ℚ
  x : ℚ
  y : ℚ
  z : ℚ
deriving DecidableEq, Repr

/-- Embeds `list(self)`: the component list `[w, x, y, z]` (the `__iter__`
order of quaternion.py). -/
def Quaternion.toList (q : Quaternion) : List ℚ := [q.w, q.x, q.y, q.z]

/-- Embeds `Quaternion(*p)` applied to a four-element list; the free-function
collaborators always produce four elements, so the fallback is unreachable. -/
def Quaternion.ofList (l : List ℚ) : Quaternion :=
  match l with
  | [w, x, y, z] => ⟨w, x, y, z⟩
  | _ => ⟨0, 0, 0, 0⟩

/-- Modelled from the spec: the free function `quaternion_multiply` (in
`compas.geometry.transformations`, not under src/) is the standard bilinear
Hamilton product of two four-element `[w, x, y, z]` sequences. -/
def quaternion_multiply (r q : List ℚ) : List ℚ :=
  match r, q with
  | [rw, rx, ry, rz], [qw, qx, qy, qz] =>
      [ rw * qw - rx * qx - ry * qy - rz * qz
      , rw * qx + rx * qw + ry * qz - rz * qy
      , rw * qy - rx * qz + ry * qw + rz * qx
      , rw * qz + rx * qy - ry * qx + rz * qw ]
  | _, _ => r

/-- Modelled from the spec: the free function `quaternion_conjugate` (not
under src/) negates x, y, z and keeps w. -/
def quaternion_conjugate (q : List ℚ) : List ℚ :=
  match q with
  | [w, x, y, z] => [w, -x, -y, -z]
  | _ => q

/-- Modelled from the spec: the free function `quaternion_norm` (not under
src/) is the Euclidean length `sqrt(w^2 + x^2 + y^2 + z^2)`; the square root,
a floating-point primitive, is passed in as an arbitrary function so every
theorem below holds for each possible rounding of it. -/
def quaternion_norm (sqrt : ℚ → ℚ) (q : List ℚ) : ℚ :=
  sqrt (q.foldl (fun acc c => acc + c * c) 0)

/-- Modelled from the spec: the free function `quaternion_unitize` (not under
src/) divides all four components by the norm. -/
def quaternion_unitize (sqrt : ℚ → ℚ) (q : List ℚ) : List ℚ :=
  q.map (fun c => c / quaternion_norm sqrt q)

/-- Modelled from the spec: the free function `quaternion_canonize` (not
under src/) applies the canonical-sign convention, flipping all four signs
when the scalar part is negative. -/
def quaternion_canonize (q : List ℚ) : List ℚ :=
  match q with
  | [w, x, y, z] => if w < 0 then [-w, -x, -y, -z] else [w, x, y, z]
  | _ => q

/-- Embeds `Quaternion.__mul__`: `quaternion_multiply(list(self), list(other))`
wrapped in a new `Quaternion`.  The triple is (the returned new object, the
state of `self` after the call, the state of `other` after the call). -/
def Quaternion.mul_run (r q : Quaternion) : Quaternion × Quaternion × Quaternion :=
  (Quaternion.ofList (quaternion_multiply r.toList q.toList), r, q)

/-- Embeds the `conjugate` property: a new `Quaternion` built from
`quaternion_conjugate(list(self))`.  The pair is (the returned new object,
the state of `self` after the call). -/
def Quaternion.conjugate_run (q : Quaternion) : Quaternion × Quaternion :=
  (Quaternion.ofList (quaternion_conjugate q.toList), q)

/-- Embeds the mutating method `unitize`: the receiver's four fields are
overwritten with `quaternion_unitize(list(self))`; the method returns
nothing, so the result is just the receiver's new state. -/
def Quaternion.unitize (sqrt : ℚ → ℚ) (q : Quaternion) : Quaternion :=
  Quaternion.ofList (quaternion_unitize sqrt q.toList)

/-- Embeds the non-mutating `unitized` property: a new `Quaternion` built
from `quaternion_unitize(list(self))`.  The pair is (the returned new
object, the state of `self` after the call). -/
def Quaternion.unitized_run (sqrt : ℚ → ℚ) (q : Quaternion) :
    Quaternion × Quaternion :=
  (Quaternion.ofList (quaternion_unitize sqrt q.toList), q)

/-- Embeds the mutating method `canonize`: the receiver's four fields are
overwritten with `quaternion_canonize(list(self))`. -/
def Quaternion.canonize (q : Quaternion) : Quaternion :=
  Quaternion.ofList (quaternion_canonize q.toList)

/-- Embeds the non-mutating `canonized` property: a new `Quaternion` built
from `quaternion_canonize(list(self))`.  The pair is (the returned new
object, the state of `self` after the call). -/
def Quaternion.canonized_run (q : Quaternion) : Quaternion × Quaternion :=
  (Quaternion.ofList (quaternion_canonize q.toList), q)

/-- Embeds the `norm` property: `quaternion_norm(list(self))`. -/
def Quaternion.norm (sqrt : ℚ → ℚ) (q : Quaternion) : ℚ :=
  quaternion_norm sqrt q.toList

/-- A concrete frame for concrete instances. -/
def f0 : Frame := ⟨0⟩

/-- A fully initialized arc: radius 2, start angle 0, end angle 3. -/
def arcW : Arc := ⟨some f0, some 2, some 0, some 3⟩

/-- A freshly allocated arc none of whose fields has been assigned. -/
def arcN : Arc := ⟨none, none, none, none⟩

/-- An arc whose start and end angles coincide, so its sweep angle is 0. -/
def arcZ : Arc := ⟨some f0, some 1, some 1, some 1⟩

lemma PI2_pos : 0 < PI2 := by norm_num [PI2, math_pi]

lemma one_le_PI2 : (1 : ℚ) ≤ PI2 := by norm_num [PI2, math_pi]

lemma three_le_PI2 : (3 : ℚ) ≤ PI2 := by norm_num [PI2, math_pi]

/-- On an arc whose two angle fields are set, the `angle` property returns
their difference and leaves the state unchanged. -/
lemma angle_get_of_set (a : Arc) (s e : ℚ)
    (hs : a._start_angle = some s) (he : a._end_angle = some e) :
    a.angle_get = .ok (e - s, a) := by
  unfold Arc.angle_get Arc.end_angle_get Arc.start_angle_get
  rw [hs, he]

/-- On an arc whose two angle fields are set, `_verify` is the guarded check
on the sweep angle. -/
lemma verify_of_set (a : Arc) (s e : ℚ)
    (hs : a._start_angle = some s) (he : a._end_angle = some e) :
    a._verify =
      if e - s < 0 ∨ e - s > PI2 then .error .invalidGeometry else .ok a := by
  unfold Arc._verify
  rw [angle_get_of_set a s e hs he]

/-- C1 counterexample: on the arc whose start and end angles are both 1 the
sweep angle is 1 - 1 = 0, which lies outside the half-open interval (0, 2π],
yet `_verify` returns without raising — so `_verify` does not raise exactly
on sweep angles outside (0, 2π], and returning without error does not imply a
strictly positive sweep. -/
theorem C1_counterexample :
    arcZ.angle_get = .ok (1 - 1, arcZ) ∧ ¬ (0 < (1 : ℚ) - 1) ∧
      arcZ._verify = .ok arcZ := by
  refine ⟨angle_get_of_set arcZ 1 1 rfl rfl, by norm_num, ?_⟩
  rw [verify_of_set arcZ 1 1 rfl rfl, if_neg]
  push_neg
  constructor
  · norm_num
  · norm_num
    exact PI2_pos.le

/-- C1 amended: for every arc whose start and end angles are set to s and e,
`_verify` raises `InvalidGeometry` exactly when the sweep angle e - s lies
outside the closed interval [0, 2π]; in particular, whenever `_verify`
returns without error the sweep angle is at least 0 (possibly 0) and at most
2π. -/
theorem C1_verify (a : Arc) (s e : ℚ)
    (hs : a._start_angle = some s) (he : a._end_angle = some e) :
    ((∃ err, a._verify = .error err) ↔ (e - s < 0 ∨ e - s > PI2))
    ∧ (a._verify = .ok a ↔ (0 ≤ e - s ∧ e - s ≤ PI2)) := by
  rw [verify_of_set a s e hs he]
  constructor
  · constructor
    · rintro ⟨err, herr⟩
      by_contra hc
      rw [if_neg hc] at herr
      exact Except.noConfusion herr
    · intro hc
      rw [if_pos hc]
      exact ⟨.invalidGeometry, rfl⟩
  · constructor
    · intro hok
      by_cases hc : e - s < 0 ∨ e - s > PI2
      · rw [if_pos hc] at hok
        exact absurd hok (fun h => Except.noConfusion h)
      · push_neg at hc
        exact hc
    · intro hgood
      rw [if_neg]
      push_neg
      exact hgood

/-- C1 witness: the amended statement instantiated on the concrete arc with
start angle 0 and end angle 3. -/
theorem C1_verify_witness :
    arcW._start_angle = some 0 ∧ arcW._end_angle = some 3 ∧
      (((∃ err, arcW._verify = .error err) ↔
          ((3 : ℚ) - 0 < 0 ∨ (3 : ℚ) - 0 > PI2))
        ∧ (arcW._verify = .ok arcW ↔ (0 ≤ (3 : ℚ) - 0 ∧ (3 : ℚ) - 0 ≤ PI2))) :=
  ⟨rfl, rfl, C1_verify arcW 0 3 rfl rfl⟩

/-- C2: for every value v, the radius setter raises `InvalidValue` exactly
when v ≤ 0 and otherwise stores v; each angle setter raises `InvalidValue`
exactly when v < 0 or v > 2π and otherwise stores v, so the boundary values 0
and 2π are accepted and stored. -/
theorem C2_setters (a : Arc) (v : ℚ) :
    ((∃ err, a.radius_set v = .error err) ↔ v ≤ 0)
    ∧ (v ≤ 0 → a.radius_set v = .error .invalidValue)
    ∧ (0 < v → a.radius_set v = .ok { a with _radius := some v })
    ∧ ((∃ err, a.start_angle_set v = .error err) ↔ (v < 0 ∨ v > PI2))
    ∧ ((v < 0 ∨ v > PI2) → a.start_angle_set v = .error .invalidValue)
    ∧ (0 ≤ v → v ≤ PI2 →
        a.start_angle_set v = .ok { a with _start_angle := some v })
    ∧ ((∃ err, a.end_angle_set v = .error err) ↔ (v < 0 ∨ v > PI2))
    ∧ ((v < 0 ∨ v > PI2) → a.end_angle_set v = .error .invalidValue)
    ∧ (0 ≤ v → v ≤ PI2 →
        a.end_angle_set v = .ok { a with _end_angle := some v }) := by
  unfold Arc.radius_set Arc.start_angle_set Arc.end_angle_set
  refine ⟨?_, ?_, ?_, ?_, ?_, ?_, ?_, ?_, ?_⟩
  · split_ifs with h <;> simp [h]
  · intro h
    rw [if_pos h]
  · intro h
    rw [if_neg (not_le.mpr h)]
  · split_ifs with h <;> simp [h]
  · intro h
    rw [if_pos h]
  · intro h1 h2
    rw [if_neg]
    push_neg
    exact ⟨h1, h2⟩
  · split_ifs with h <;> simp [h]
  · intro h
    rw [if_pos h]
  · intro h1 h2
    rw [if_neg]
    push_neg
    exact ⟨h1, h2⟩

/-- C2 witness: the setter characterization instantiated at the boundary
value 2π on a concrete arc: the angle setters accept and store it, the radius
setter accepts it. -/
theorem C2_setters_witness :
    (0 < PI2 → arcW.radius_set PI2 = .ok { arcW with _radius := some PI2 })
    ∧ (0 ≤ PI2 → PI2 ≤ PI2 →
        arcW.start_angle_set PI2 = .ok { arcW with _start_angle := some PI2 })
    ∧ (0 ≤ PI2 → PI2 ≤ PI2 →
        arcW.end_angle_set PI2 = .ok { arcW with _end_angle := some PI2 })
    ∧ arcW.start_angle_set PI2 = .ok { arcW with _start_angle := some PI2 } :=
  ⟨(C2_setters arcW PI2).2.2.1,
   (C2_setters arcW PI2).2.2.2.2.2.1,
   (C2_setters arcW PI2).2.2.2.2.2.2.2.2,
   (C2_setters arcW PI2).2.2.2.2.2.1 PI2_pos.le le_rfl⟩

/-- C3: reading `radius` or `end_angle` on an arc where that field was never
assigned raises `NotSet`, while reading `start_angle` on an arc where it was
never assigned returns 0.0 and stores 0.0; on an arc whose fields are set,
each getter returns the stored value and leaves the state unchanged. -/
theorem C3_getters (a : Arc) :
    (a._radius = none → a.radius_get = .error .notSet)
    ∧ (∀ r, a._radius = some r → a.radius_get = .ok r)
    ∧ (a._end_angle = none → a.end_angle_get = .error .notSet)
    ∧ (∀ v, a._end_angle = some v → a.end_angle_get = .ok v)
    ∧ (a._start_angle = none →
        a.start_angle_get = (0, { a with _start_angle := some 0 }))
    ∧ (∀ v, a._start_angle = some v → a.start_angle_get = (v, a)) := by
  unfold Arc.radius_get Arc.end_angle_get Arc.start_angle_get
  refine ⟨?_, ?_, ?_, ?_, ?_, ?_⟩
  · intro h
    rw [h]
  · intro r h
    rw [h]
  · intro h
    rw [h]
  · intro v h
    rw [h]
  · intro h
    rw [h]
  · intro v h
    rw [h]

/-- C3 witness: the getter characterization instantiated on the fresh
all-unset arc and on the fully set concrete arc. -/
theorem C3_getters_witness :
    (arcN._radius = none → arcN.radius_get = .error .notSet)
    ∧ (arcN._end_angle = none → arcN.end_angle_get = .error .notSet)
    ∧ (arcN._start_angle = none →
        arcN.start_angle_get = (0, { arcN with _start_angle := some 0 }))
    ∧ (arcW._radius = some 2 → arcW.radius_get = .ok 2)
    ∧ arcN.radius_get = .error .notSet
    ∧ arcN.start_angle_get = (0, { arcN with _start_angle := some 0 }) :=
  ⟨(C3_getters arcN).1,
   (C3_getters arcN).2.2.1,
   (C3_getters arcN).2.2.2.2.1,
   (C3_getters arcW).2.1 2,
   (C3_getters arcN).1 rfl,
   (C3_getters arcN).2.2.2.2.1 rfl⟩

/-- On a fully set arc, the duck-typed view through `__getitem__` yields the
four components at indices 0..3. -/
lemma toObj_of_set (b : Arc) (fb : Frame) (rb sb eb : ℚ)
    (h1 : b._frame = some fb) (h2 : b._radius = some rb)
    (h3 : b._start_angle = some sb) (h4 : b._end_angle = some eb) :
    b.toObj 0 = some (.frameV fb) ∧ b.toObj 1 = some (.numV rb)
    ∧ b.toObj 2 = some (.numV sb) ∧ b.toObj 3 = some (.numV eb) := by
  unfold Arc.toObj Arc.getitem Arc.frame_get Arc.radius_get
    Arc.start_angle_get Arc.end_angle_get
  rw [h1, h2, h3, h4]
  exact ⟨rfl, rfl, rfl, rfl⟩

/-- On a fully set arc compared with an object all four of whose components
are obtainable, `__eq__` evaluates to the short-circuit componentwise
comparison. -/
lemma eq_of_set (a : Arc) (fa : Frame) (ra sa ea : ℚ) (o : Obj)
    (of orad ost oe : Val)
    (ha1 : a._frame = some fa) (ha2 : a._radius = some ra)
    (ha3 : a._start_angle = some sa) (ha4 : a._end_angle = some ea)
    (ho0 : o 0 = some of) (ho1 : o 1 = some orad)
    (ho2 : o 2 = some ost) (ho3 : o 3 = some oe) :
    a.eq o =
      if Val.frameV fa ≠ of then .ok false
      else if Val.numV ra ≠ orad then .ok false
      else if Val.numV sa ≠ ost then .ok false
      else .ok (Val.numV ea = oe) := by
  unfold Arc.eq Arc.frame_get Arc.radius_get Arc.start_angle_get
    Arc.end_angle_get
  rw [ho0, ho1, ho2, ho3, ha1, ha2, ha3, ha4]

/-- C4: for two fully initialized arcs, `__eq__` returns True exactly when
frame, radius, start angle and end angle agree componentwise; and against any
object from which one of the four indexed components cannot be obtained,
`__eq__` returns False without raising. -/
theorem C4_eq (a b : Arc) (fa fb : Frame) (ra sa ea rb sb eb : ℚ)
    (ha1 : a._frame = some fa) (ha2 : a._radius = some ra)
    (ha3 : a._start_angle = some sa) (ha4 : a._end_angle = some ea)
    (hb1 : b._frame = some fb) (hb2 : b._radius = some rb)
    (hb3 : b._start_angle = some sb) (hb4 : b._end_angle = some eb) :
    (a.eq b.toObj = .ok true ↔ (fa = fb ∧ ra = rb ∧ sa = sb ∧ ea = eb))
    ∧ (∀ o : Obj, (o 0 = none ∨ o 1 = none ∨ o 2 = none ∨ o 3 = none) →
        a.eq o = .ok false) := by
  obtain ⟨ht0, ht1, ht2, ht3⟩ := toObj_of_set b fb rb sb eb hb1 hb2 hb3 hb4
  constructor
  · rw [eq_of_set a fa ra sa ea b.toObj (.frameV fb) (.numV rb) (.numV sb)
      (.numV eb) ha1 ha2 ha3 ha4 ht0 ht1 ht2 ht3]
    split_ifs with hf hr hs <;>
      simp_all [Val.frameV.injEq, Val.numV.injEq]
  · intro o ho
    unfold Arc.eq
    rcases h0 : o 0 with _ | v0 <;> rcases h1 : o 1 with _ | v1 <;>
      rcases h2 : o 2 with _ | v2 <;> rcases h3 : o 3 with _ | v3 <;>
      simp_all

/-- C4 witness: the equality characterization instantiated on the concrete
arc compared with itself, and on an object with no component at index 3. -/
theorem C4_eq_witness :
    (arcW.eq arcW.toObj = .ok true ↔ (f0 = f0 ∧ (2 : ℚ) = 2 ∧ (0 : ℚ) = 0
      ∧ (3 : ℚ) = 3))
    ∧ ((listObj [] 0 = none ∨ listObj [] 1 = none ∨ listObj [] 2 = none
        ∨ listObj [] 3 = none) → arcW.eq (listObj []) = .ok false)
    ∧ arcW.eq (listObj []) = .ok false :=
  ⟨(C4_eq arcW arcW f0 f0 2 0 3 2 0 3 rfl rfl rfl rfl rfl rfl rfl rfl).1,
   fun h => (C4_eq arcW arcW f0 f0 2 0 3 2 0 3 rfl rfl rfl rfl rfl rfl rfl
      rfl).2 (listObj []) h,
   (C4_eq arcW arcW f0 f0 2 0 3 2 0 3 rfl rfl rfl rfl rfl rfl rfl rfl).2
      (listObj []) (Or.inl rfl)⟩

/-- C5: on a fully set arc with positive radius and angles in [0, 2π], the
serialized record holds exactly the four named fields frame, radius,
start_angle, end_angle, and assigning it back through the `data` setter
reconstructs the original arc, which compares equal to itself under the
arc's equality. -/
theorem C5_data_roundtrip (a b : Arc) (f : Frame) (r s e : ℚ)
    (h1 : a._frame = some f) (h2 : a._radius = some r)
    (h3 : a._start_angle = some s) (h4 : a._end_angle = some e)
    (hr : 0 < r) (hs0 : 0 ≤ s) (hs2 : s ≤ PI2)
    (he0 : 0 ≤ e) (he2 : e ≤ PI2) :
    a.data_get = ⟨some f, some r, some s, some e⟩
    ∧ b.data_set a.data_get = .ok a
    ∧ a.eq a.toObj = .ok true := by
  have hr2 : ¬ r ≤ 0 := not_le.mpr hr
  have hs5 : ¬ (s < 0 ∨ s > PI2) := by
    push_neg
    exact ⟨hs0, hs2⟩
  have he5 : ¬ (e < 0 ∨ e > PI2) := by
    push_neg
    exact ⟨he0, he2⟩
  have hdg : a.data_get = ⟨some f, some r, some s, some e⟩ := by
    unfold Arc.data_get
    rw [h1, h2, h3, h4]
  refine ⟨hdg, ?_, ?_⟩
  · rw [hdg]
    unfold Arc.data_set Arc.frame_set Arc.radius_set Arc.start_angle_set
      Arc.end_angle_set
    simp only [if_neg hr2, if_neg hs5, if_neg he5]
    rw [← h1, ← h2, ← h3, ← h4]
  · obtain ⟨ht0, ht1, ht2, ht3⟩ := toObj_of_set a f r s e h1 h2 h3 h4
    rw [eq_of_set a f r s e a.toObj (.frameV f) (.numV r) (.numV s)
      (.numV e) h1 h2 h3 h4 ht0 ht1 ht2 ht3]
    simp

/-- C5 witness: the round trip instantiated on the concrete arc with radius
2, start angle 0 and end angle 3, deserialized over the all-unset arc. -/
theorem C5_data_roundtrip_witness :
    arcW.data_get = ⟨some f0, some 2, some 0, some 3⟩
    ∧ arcN.data_set arcW.data_get = .ok arcW
    ∧ arcW.eq arcW.toObj = .ok true :=
  C5_data_roundtrip arcW arcN f0 2 0 3 rfl rfl rfl rfl (by decide)
    (by decide) PI2_pos.le (by decide) three_le_PI2

/-- C6: on a fully set arc with radius r, start angle s and end angle e, the
derived circle is the circle of the arc's frame with radius r, the diameter
is 2r, the circumference is 2πr, the sweep angle is e - s and the length is
r (e - s). -/
theorem C6_derived (a : Arc) (f : Frame) (r s e : ℚ)
    (h1 : a._frame = some f) (h2 : a._radius = some r) (_hr : 0 < r)
    (h3 : a._start_angle = some s) (h4 : a._end_angle = some e) :
    a.circle_get = .ok ⟨f, r⟩
    ∧ a.diameter_get = .ok (2 * r)
    ∧ a.circumference_get = .ok (2 * math_pi * r)
    ∧ a.angle_get = .ok (e - s, a)
    ∧ a.length_get = .ok (r * (e - s), a) := by
  refine ⟨?_, ?_, ?_, angle_get_of_set a s e h3 h4, ?_⟩
  · unfold Arc.circle_get Arc.frame_get Arc.radius_get
    rw [h1, h2]
  · unfold Arc.diameter_get Arc.radius_get
    rw [h2]
  · unfold Arc.circumference_get Arc.diameter_get Arc.radius_get
    rw [h2]
    show (Except.ok (2 * r * math_pi) : Except Err ℚ) = .ok (2 * math_pi * r)
    exact congrArg Except.ok (by ring)
  · unfold Arc.length_get Arc.radius_get
    rw [h2, angle_get_of_set a s e h3 h4]

/-- C6 witness: the derived properties instantiated on the concrete arc with
radius 2, start angle 0 and end angle 3. -/
theorem C6_derived_witness :
    arcW.circle_get = .ok ⟨f0, 2⟩
    ∧ arcW.diameter_get = .ok (2 * 2)
    ∧ arcW.circumference_get = .ok (2 * math_pi * 2)
    ∧ arcW.angle_get = .ok (3 - 0, arcW)
    ∧ arcW.length_get = .ok (2 * (3 - 0), arcW) :=
  C6_derived arcW f0 2 0 3 rfl rfl (by decide) rfl rfl

/-- C7: for every circle with positive radius and every pair of angles in
[0, 2π], `from_circle` builds the arc holding the circle's frame and radius
and the two angles, and that arc's derived circle is the original circle. -/
theorem C7_from_circle (c : Circle) (sa ea : ℚ) (hr : 0 < c.radius)
    (hs0 : 0 ≤ sa) (hs2 : sa ≤ PI2) (he0 : 0 ≤ ea) (he2 : ea ≤ PI2) :
    Arc.from_circle c sa ea =
      .ok ⟨some c.frame, some c.radius, some sa, some ea⟩
    ∧ Arc.circle_get ⟨some c.frame, some c.radius, some sa, some ea⟩
        = .ok c := by
  have hr2 : ¬ c.radius ≤ 0 := not_le.mpr hr
  have hs5 : ¬ (sa < 0 ∨ sa > PI2) := by
    push_neg
    exact ⟨hs0, hs2⟩
  have he5 : ¬ (ea < 0 ∨ ea > PI2) := by
    push_neg
    exact ⟨he0, he2⟩
  refine ⟨?_, rfl⟩
  unfold Arc.from_circle Arc.init Arc.radius_set Arc.start_angle_set
    Arc.end_angle_set
  simp only [if_neg hr2, if_neg hs5, if_neg he5]

/-- C7 witness: `from_circle` instantiated on the circle with radius 2 and
the angle pair (0, 3). -/
theorem C7_from_circle_witness :
    Arc.from_circle ⟨f0, 2⟩ 0 3 = .ok ⟨some f0, some 2, some 0, some 3⟩
    ∧ Arc.circle_get ⟨some f0, some 2, some 0, some 3⟩ = .ok ⟨f0, 2⟩ :=
  C7_from_circle ⟨f0, 2⟩ 0 3 (by decide) (by decide) PI2_pos.le
    (by decide) three_le_PI2

/-- C8: for every quaternion of nonzero norm, the non-mutating `unitized` and
`canonized` return a new quaternion built from the corresponding free
function and leave the receiver's four components unchanged; the mutating
`unitize` and `canonize` leave the receiver holding exactly the components
the non-mutating form would have returned beforehand; and multiplication
returns the Hamilton product as a new quaternion leaving both operands'
components unchanged.  The result holds for every rounding of the
floating-point square root used by the norm. -/
theorem C8_mutation_pairs (sqrt : ℚ → ℚ) (q q1 q2 : Quaternion)
    (_hn : Quaternion.norm sqrt q ≠ 0) :
    ((q.unitized_run sqrt).2 = q
      ∧ (q.unitized_run sqrt).1 =
          ⟨q.w / Quaternion.norm sqrt q, q.x / Quaternion.norm sqrt q,
            q.y / Quaternion.norm sqrt q, q.z / Quaternion.norm sqrt q⟩
      ∧ q.unitize sqrt = (q.unitized_run sqrt).1)
    ∧ (q.canonized_run.2 = q
      ∧ q.canonize = q.canonized_run.1)
    ∧ ((q1.mul_run q2).2.1 = q1 ∧ (q1.mul_run q2).2.2 = q2
      ∧ (q1.mul_run q2).1 =
          ⟨q1.w * q2.w - q1.x * q2.x - q1.y * q2.y - q1.z * q2.z,
           q1.w * q2.x + q1.x * q2.w + q1.y * q2.z - q1.z * q2.y,
           q1.w * q2.y - q1.x * q2.z + q1.y * q2.w + q1.z * q2.x,
           q1.w * q2.z + q1.x * q2.y - q1.y * q2.x + q1.z * q2.w⟩) :=
  ⟨⟨rfl, rfl, rfl⟩, ⟨rfl, rfl⟩, ⟨rfl, rfl, rfl⟩⟩

/-- The quaternion (1, 0, 0, 0) has nonzero norm under the identity square
root. -/
lemma norm_one_ne_zero : Quaternion.norm id ⟨1, 0, 0, 0⟩ ≠ 0 := by
  unfold Quaternion.norm quaternion_norm Quaternion.toList
  norm_num

/-- C8 witness: the mutation contract instantiated with the identity in
place of the square root on concrete quaternions. -/
theorem C8_mutation_pairs_witness :
    Quaternion.norm id ⟨1, 0, 0, 0⟩ ≠ 0
    ∧ ((Quaternion.unitized_run id ⟨1, 0, 0, 0⟩).2 = ⟨1, 0, 0, 0⟩
        ∧ Quaternion.unitize id ⟨1, 0, 0, 0⟩ =
            (Quaternion.unitized_run id ⟨1, 0, 0, 0⟩).1)
    ∧ (Quaternion.canonize ⟨1, 0, 0, 0⟩ =
        (Quaternion.canonized_run ⟨1, 0, 0, 0⟩).1)
    ∧ (Quaternion.mul_run ⟨1, 0, 0, 0⟩ ⟨0, 1, 0, 0⟩).2.2 = ⟨0, 1, 0, 0⟩ :=
  ⟨norm_one_ne_zero,
   ⟨(C8_mutation_pairs id ⟨1, 0, 0, 0⟩ ⟨1, 0, 0, 0⟩ ⟨0, 1, 0, 0⟩
        norm_one_ne_zero).1.1,
    (C8_mutation_pairs id ⟨1, 0, 0, 0⟩ ⟨1, 0, 0, 0⟩ ⟨0, 1, 0, 0⟩
        norm_one_ne_zero).1.2.2⟩,
   (C8_mutation_pairs id ⟨1, 0, 0, 0⟩ ⟨1, 0, 0, 0⟩ ⟨0, 1, 0, 0⟩
        norm_one_ne_zero).2.1.2,
   (C8_mutation_pairs id ⟨1, 0, 0, 0⟩ ⟨1, 0, 0, 0⟩ ⟨0, 1, 0, 0⟩
        norm_one_ne_zero).2.2.2.1⟩

/-- C9: for every quaternion (w, x, y, z), the `conjugate` property returns
the new quaternion (w, -x, -y, -z) leaving the receiver unchanged, and
conjugating twice restores the original four components. -/
theorem C9_conjugate (q : Quaternion) :
    q.conjugate_run = (⟨q.w, -q.x, -q.y, -q.z⟩, q)
    ∧ (q.conjugate_run.1).conjugate_run.1 = q := by
  constructor
  · rfl
  · show (⟨q.w, - -q.x, - -q.y, - -q.z⟩ : Quaternion) = q
    simp only [neg_neg]

/-- C10: arc equality is duck typed: a fully initialized arc compares equal
to any object whose four indexed components are its frame, radius, start
angle and end angle — in particular to the plain four-element list of its
components, which is not an Arc. -/
theorem C10_duck_typed (a : Arc) (f : Frame) (r s e : ℚ)
    (h1 : a._frame = some f) (h2 : a._radius = some r)
    (h3 : a._start_angle = some s) (h4 : a._end_angle = some e) :
    ∀ o : Obj, o 0 = some (.frameV f) → o 1 = some (.numV r) →
      o 2 = some (.numV s) → o 3 = some (.numV e) → a.eq o = .ok true := by
  intro o ho0 ho1 ho2 ho3
  rw [eq_of_set a f r s e o (.frameV f) (.numV r) (.numV s) (.numV e)
    h1 h2 h3 h4 ho0 ho1 ho2 ho3]
  simp

/-- C10 witness: the concrete arc compares equal to the plain list of its
four components. -/
theorem C10_duck_typed_witness :
    arcW.eq (listObj [.frameV f0, .numV 2, .numV 0, .numV 3]) = .ok true :=
  C10_duck_typed arcW f0 2 0 3 rfl rfl rfl rfl
    (listObj [.frameV f0, .numV 2, .numV 0, .numV 3]) rfl rfl rfl rfl

end Compas
